import Mathlib

/-!
Shallow embedding of the data-shaping layer of the epidemic-dashboard
repository (unified-document chart transformers, summary statistics,
memoized document fetch, and legacy row-oriented aggregations), together
with proofs of the specification claims about them.

Modelling conventions:
- JavaScript objects are embedded as structures; JSON mappings whose key
  sets are dynamic are embedded as insertion-ordered association lists
  (List (String × _)), with List.lookup as property access.
- JavaScript numbers that the program only ever produces by integer
  arithmetic are embedded as Int; the one float computation, toFixed(1)
  of a percentage, is embedded by exact rational rounding implemented on
  integers (JS toFixed negates a negative argument before choosing the
  nearest multiple of 1/10 and takes the larger candidate at an exact
  tie, so ties round away from zero).
- Values of untyped JSON leaves that may be numbers or booleans are
  embedded as JVal; JS truthiness, the lenient or-else operator, and the
  ToNumber coercion applied by arithmetic are spelled out explicitly.
- NaN produced by parseInt on non-numeric text is embedded as none in
  Option Int, with NaN-propagating addition.
- Array.prototype.sort is stable and, for a consistent comparator,
  produces the unique stable order; it is embedded as Mathlib's stable
  List.insertionSort with the comparator's reflexive relation.
-/

/-- JVal is an untyped JSON leaf value as the program can observe it:
a number or a boolean. -/
inductive JVal where
  | num (n : Int)
  | bool (b : Bool)
deriving DecidableEq

/-- Truthiness of a JVal under JavaScript rules: a number is truthy iff
it is nonzero, a boolean is truthy iff it is true. -/
def JVal.truthy : JVal → Bool
  | .num n => n != 0
  | .bool b => b

/-- The JavaScript expression v or-else d for an optional value v
(undefined is falsy, otherwise truthiness decides). -/
def jsOr (v : Option JVal) (d : JVal) : JVal :=
  match v with
  | some x => if x.truthy then x else d
  | none => d

/-- ToNumber coercion applied by JavaScript arithmetic to a JVal. -/
def JVal.toNum : JVal → Int
  | .num n => n
  | .bool b => if b then 1 else 0

/-- Value of the JavaScript expression ((x as number) or-else 0) when it
is subsequently used in arithmetic: absent or falsy gives 0, a truthy
number gives itself, a truthy boolean coerces to 1. -/
def jsNumOr0 (v : Option JVal) : Int :=
  (jsOr v (.num 0)).toNum

/-- The JavaScript expression s or-else d for an optional string s: the
empty string is falsy. -/
def jsOrS (v : Option String) (d : String) : String :=
  match v with
  | some s => if s.isEmpty then d else s
  | none => d

/-- NaN-propagating addition of JavaScript numbers: none stands for NaN. -/
def jsAddN (a b : Option Int) : Option Int :=
  match a, b with
  | some x, some y => some (x + y)
  | _, _ => none

/-- Code-unit comparison used by the default Array.prototype.sort
comparator on strings: true iff the first list is lexicographically at
most the second. -/
def lexLe : List Char → List Char → Bool
  | [], _ => true
  | _ :: _, [] => false
  | a :: as, b :: bs =>
    if a.toNat < b.toNat then true
    else if b.toNat < a.toNat then false
    else lexLe as bs

/-- Lower-casing of a string, as String.prototype.toLowerCase on the
program's ASCII data. -/
def lowerS (s : String) : String :=
  ⟨s.data.map Char.toLower⟩

/-- Substring test, as String.prototype.includes. -/
def hasSub : List Char → List Char → Bool
  | [], pat => pat.isEmpty
  | c :: t, pat => pat.isPrefixOf (c :: t) || hasSub t pat

/-- Replacement of the first occurrence of a pattern, as
String.prototype.replace with a string pattern. -/
def replaceFirst (pat rep : List Char) : List Char → List Char
  | [] => if pat.isPrefixOf ([] : List Char) then rep else []
  | c :: t =>
    if pat.isPrefixOf (c :: t) then rep ++ (c :: t).drop pat.length
    else c :: replaceFirst pat rep t

/-- Decimal-digit test on a character. -/
def isDigitC (c : Char) : Bool :=
  48 ≤ c.toNat && c.toNat ≤ 57

/-- Numeric value of a most-significant-first digit string. -/
def digitsVal : List Char → Nat
  | [] => 0
  | c :: t => (c.toNat - 48) * 10 ^ t.length + digitsVal t

/-- Longest leading run of decimal digits, or none when there is none
(parseInt yields NaN in that case). -/
def digitsOf (l : List Char) : Option Nat :=
  let d := l.takeWhile isDigitC
  if d.isEmpty then none else some (digitsVal d)

/-- JavaScript parseInt with radix 10: skip leading spaces, accept an
optional sign, then the longest digit prefix; none models NaN. -/
def parseIntJS (s : String) : Option Int :=
  let l := s.data.dropWhile (· == ' ')
  match l with
  | '-' :: t => (digitsOf t).map (fun n => -(n : Int))
  | '+' :: t => (digitsOf t).map (fun n => (n : Int))
  | _ => (digitsOf l).map (fun n => (n : Int))

/-- Sort key of a year string under the comparator
parseInt(a) - parseInt(b). For the well-formed documents all theorems
quantify over, parseInt always succeeds; the behaviour of
Array.prototype.sort on a NaN comparator result is unspecified in
JavaScript, and the model maps that unreachable case to 0. -/
def cmpKey (s : String) : Int :=
  (parseIntJS s).getD 0

/-- Rendering of a nonnegative number of tenths as a one-decimal
string. -/
def natToDec1 (m : Nat) : String :=
  toString (m / 10) ++ "." ++ toString (m % 10)

/-- Number.prototype.toFixed(1) applied to the exact rational num/den
(den positive). The ECMAScript algorithm prefixes the sign and negates
a negative argument first, then picks the integer n whose n/10 is
nearest, taking the LARGER n at an exact tie; so ties round away from
zero, and a negative value rounding to zero prints with the minus sign
kept. The program computes the quotient in binary doubles; the model
rounds the exact rational, which agrees whenever the double quotient
does not itself round across a tie. -/
def toFixed1 (num den : Int) : String :=
  if num < 0 then "-" ++ natToDec1 (Int.fdiv (20 * (-num) + den) (2 * den)).toNat
  else natToDec1 (Int.fdiv (20 * num + den) (2 * den)).toNat

-- ==================== UNIFIED DATA TYPES ====================

/-- Metadata block of the unified document. -/
structure Metadata where
  title : String
  description : String
  sources : List String
  lastUpdated : String
  version : String
deriving DecidableEq

/-- Catalog entry for a district or subdistrict inside a RegionInfo. -/
structure DistrictRef where
  id : String
  name : String
  type : String
deriving DecidableEq

/-- RegionInfo of the unified document. -/
structure RegionInfo where
  name : String
  type : String
  kode : String
  districts : Option (List DistrictRef)
deriving DecidableEq

/-- Regions block of the unified document. -/
structure Regions where
  jakarta : RegionInfo
  jabar : RegionInfo
  jatim : RegionInfo
deriving DecidableEq

/-- DiseaseInfo catalog entry. -/
structure DiseaseInfo where
  id : String
  name : String
  category : String
  preventable : Bool
deriving DecidableEq

/-- DiseaseCount triple of a Jakarta-style record. -/
structure DiseaseCount where
  laki : Int
  perempuan : Int
  total : Int
deriving DecidableEq

/-- One entry of a Jakarta year's cases list. -/
structure DistrictCases where
  district : String
  diseases : List (String × DiseaseCount)
deriving DecidableEq

/-- JakartaYearData of the unified document. -/
structure JakartaYearData where
  periode : String
  source : String
  isEstimated : Option Bool
  cases : List DistrictCases
  summary : List (String × DiseaseCount)
deriving DecidableEq

/-- Subdistrict catalog entry of the Cirebon and Bogor payloads. -/
structure Subdistrict where
  id : String
  name : String
deriving DecidableEq

/-- Summary block of the Cirebon and Bogor payloads. -/
structure CBSummary where
  totalAllYears : Int
  peakYear : Int
  peakCount : Int
  hotspot : String
deriving DecidableEq

/-- CirebonData payload. Its yearlyData maps a year string to a JSON
object holding subdistrict counts plus bookkeeping keys such as total;
at runtime the values are untyped, hence JVal. -/
structure CirebonData where
  description : String
  diseaseType : String
  subdistricts : List Subdistrict
  yearlyData : List (String × List (String × JVal))
  summary : CBSummary
deriving DecidableEq

/-- BogorData payload, of the same runtime shape as CirebonData (its
yearlyData values may additionally be booleans, e.g. isEstimated). -/
structure BogorData where
  description : String
  diseaseType : String
  subdistricts : List Subdistrict
  yearlyData : List (String × List (String × JVal))
  summary : CBSummary
deriving DecidableEq

/-- JatimDiseaseCount of the East-Java payload. -/
structure JatimDiseaseCount where
  igd : Int
  rawat_inap : Int
  total : Int
deriving DecidableEq

/-- Year-over-year change entry of a Jatim year summary. The percent
field is a JS number; the claims never touch it, and it is embedded as
Int. -/
structure JatimYOY where
  change : Int
  percent : Int
deriving DecidableEq

/-- Summary block of a JatimYearData. -/
structure JatimYearSummary where
  totalCases : Int
  topDiseases : List String
  note : Option String
  yearOverYearChange : Option (List (String × JatimYOY))
deriving DecidableEq

/-- JatimYearData of the East-Java payload. -/
structure JatimYearData where
  periode : String
  isPartialYear : Option Bool
  diseases : List (String × JatimDiseaseCount)
  summary : JatimYearSummary
deriving DecidableEq

/-- JatimInsight record (loose schema of optional numeric keys). -/
structure JatimInsight where
  description : String
  cases2024 : Option Int
  cases2025 : Option Int
  peak2022 : Option Int
  current2024 : Option Int
deriving DecidableEq

/-- Disease-type catalog entry of the East-Java payload. -/
structure DiseaseTypeRef where
  id : String
  name : String
deriving DecidableEq

/-- Summary block of the East-Java payload. -/
structure JatimSummary where
  totalAllYears : Int
  peakYear : Int
  peakCount : Int
  mainDiseases : List String
deriving DecidableEq

/-- JatimData payload. -/
structure JatimData where
  description : String
  source : String
  diseaseTypes : List DiseaseTypeRef
  yearlyData : List (String × JatimYearData)
  insights : List (String × JatimInsight)
  summary : JatimSummary
deriving DecidableEq

/-- Year-over-year entry of an analytics trend. The field named from in
the source is renamed fromYear (from is a Lean keyword). -/
structure TrendYOY where
  fromYear : Int
  toYear : Int
  change : Int
  percentChange : Int
deriving DecidableEq

/-- Analytics trend record. -/
structure TrendInfo where
  type : String
  description : String
  yearOverYearChange : Option (List TrendYOY)
  peakValue : Option Int
deriving DecidableEq

/-- Analytics hotspot record. -/
structure Hotspot where
  region : String
  disease : String
  year : Int
  cases : Int
deriving DecidableEq

/-- AnalyticsData block of the unified document. -/
structure AnalyticsData where
  trends : List (String × TrendInfo)
  hotspots : List Hotspot
  recommendations : List String
deriving DecidableEq

/-- Data block of the unified document. -/
structure DataSection where
  jakarta : List (String × JakartaYearData)
  cirebon : CirebonData
  bogor : BogorData
  jatim : JatimData
deriving DecidableEq

/-- UnifiedData, the root document. -/
structure UnifiedData where
  metadata : Metadata
  regions : Regions
  diseases : List DiseaseInfo
  data : DataSection
  analytics : AnalyticsData
deriving DecidableEq

-- ==================== DATA FETCHING ====================

/-- State of the module-level cache cell cachedUnifiedData, together
with a count of underlying asset fetches performed so far. -/
structure FetchState where
  cachedUnifiedData : Option UnifiedData
  fetchCount : Nat
deriving DecidableEq

/-- fetchUnifiedData with the module-level mutable cache made explicit:
the asset argument is the document the network fetch would parse, the
state is the cache cell. A cached object is always truthy, so the
source's early return fires exactly when the cell is non-null. -/
def fetchUnifiedData (asset : UnifiedData) (s : FetchState) :
    UnifiedData × FetchState :=
  match s.cachedUnifiedData with
  | some d => (d, s)
  | none => (asset, { cachedUnifiedData := some asset, fetchCount := s.fetchCount + 1 })

-- ==================== CHART DATA TRANSFORMERS ====================

/-- Output record of getJakartaDistrictData. -/
structure JakartaDistrictRec where
  name : String
  id : String
  laki : Int
  perempuan : Int
  total : Int
deriving DecidableEq

/-- Jakarta data by district for bar chart. -/
def getJakartaDistrictData (unifiedData : UnifiedData) (year disease : String) :
    List JakartaDistrictRec :=
  match List.lookup year unifiedData.data.jakarta with
  | none => []
  | some yearData =>
    yearData.cases.map (fun districtData =>
      let diseaseData := (List.lookup disease districtData.diseases).getD ⟨0, 0, 0⟩
      let districtInfo : Option DistrictRef :=
        match unifiedData.regions.jakarta.districts with
        | some ds => ds.find? (fun d => d.id == districtData.district)
        | none => none
      { name := jsOrS (districtInfo.map (·.name)) districtData.district
        id := districtData.district
        laki := diseaseData.laki
        perempuan := diseaseData.perempuan
        total := diseaseData.total })

/-- Relation of the default (string code-unit) sort comparator. -/
def strSortLe (a b : String) : Prop :=
  lexLe a.data b.data = true

instance : DecidableRel strSortLe :=
  fun a b => Bool.decEq (lexLe a.data b.data) true

/-- Relation of the comparator parseInt(key a) - parseInt(key b). -/
def yearLe {α : Type} (key : α → String) (a b : α) : Prop :=
  cmpKey (key a) ≤ cmpKey (key b)

instance {α : Type} (key : α → String) : DecidableRel (yearLe key) :=
  fun a b => Int.decLe (cmpKey (key a)) (cmpKey (key b))

/-- Placeholder JakartaYearData for the unreachable lookup-miss branch
when a year taken from the mapping's own key list is looked up again. -/
def defaultJakartaYearData : JakartaYearData :=
  ⟨"", "", none, [], []⟩

/-- Output record of getJakartaYearComparison. -/
structure YearCompRec where
  year : String
  total : Int
  laki : Int
  perempuan : Int
  isEstimated : Bool
deriving DecidableEq

/-- Jakarta year-over-year comparison. -/
def getJakartaYearComparison (unifiedData : UnifiedData) (disease : String) :
    List YearCompRec :=
  let years := List.insertionSort strSortLe (unifiedData.data.jakarta.map Prod.fst)
  years.map (fun year =>
    let yearData := (List.lookup year unifiedData.data.jakarta).getD defaultJakartaYearData
    let summary := (List.lookup disease yearData.summary).getD ⟨0, 0, 0⟩
    { year := year
      total := summary.total
      laki := summary.laki
      perempuan := summary.perempuan
      isEstimated := yearData.isEstimated.getD false })

/-- Output record of getCirebonYearlyTrend. The source stores the raw
property access data.total with no default, so an absent key yields
undefined, embedded as none. -/
structure CTrendRec where
  year : String
  total : Option JVal
deriving DecidableEq

/-- Cirebon yearly trend. -/
def getCirebonYearlyTrend (unifiedData : UnifiedData) : List CTrendRec :=
  let yearlyData := unifiedData.data.cirebon.yearlyData
  List.insertionSort (yearLe CTrendRec.year)
    (yearlyData.map (fun p => { year := p.1, total := List.lookup "total" p.2 }))

/-- Output record of the per-subdistrict aggregations. -/
structure SubdistrictRec where
  name : String
  id : String
  total : Int
deriving DecidableEq

/-- Relation of the descending comparator b.total - a.total. -/
def totalDesc (a b : SubdistrictRec) : Prop :=
  b.total ≤ a.total

instance : DecidableRel totalDesc :=
  fun a b => Int.decLe b.total a.total

/-- Cumulative count for one subdistrict id across all years: the
source loops over Object.values(yearlyData) accumulating
(yearData[sub.id] as number) or-else 0. -/
def cumTotal (yearlyData : List (String × List (String × JVal))) (id : String) : Int :=
  yearlyData.foldl (fun total p => total + jsNumOr0 (List.lookup id p.2)) 0

/-- Per-subdistrict record built from the catalog entry and the yearly
data, shared verbatim by the Cirebon and Bogor functions. -/
def mkSubRec (yearlyData : List (String × List (String × JVal))) (sub : Subdistrict) :
    SubdistrictRec :=
  { name := sub.name, id := sub.id, total := cumTotal yearlyData sub.id }

/-- Cirebon by subdistrict. -/
def getCirebonBySubdistrict (unifiedData : UnifiedData) : List SubdistrictRec :=
  let yearlyData := unifiedData.data.cirebon.yearlyData
  let subdistricts := unifiedData.data.cirebon.subdistricts
  List.insertionSort totalDesc (subdistricts.map (mkSubRec yearlyData))

/-- Output record of getBogorYearlyTrend; total and isEstimated keep
whatever JVal the or-else expressions produce. -/
structure BTrendRec where
  year : String
  total : JVal
  isEstimated : JVal
deriving DecidableEq

/-- Bogor yearly trend. -/
def getBogorYearlyTrend (unifiedData : UnifiedData) : List BTrendRec :=
  let yearlyData := unifiedData.data.bogor.yearlyData
  List.insertionSort (yearLe BTrendRec.year)
    (yearlyData.map (fun p =>
      { year := p.1
        total := jsOr (List.lookup "total" p.2) (.num 0)
        isEstimated := jsOr (List.lookup "isEstimated" p.2) (.bool false) }))

/-- Bogor by subdistrict (non-zero only). -/
def getBogorBySubdistrict (unifiedData : UnifiedData) : List SubdistrictRec :=
  let yearlyData := unifiedData.data.bogor.yearlyData
  let subdistricts := unifiedData.data.bogor.subdistricts
  List.insertionSort totalDesc
    ((subdistricts.map (mkSubRec yearlyData)).filter (fun s => decide (0 < s.total)))

/-- Output record of getJatimDiseaseComparison: the source builds a
dynamic record keyed by the fixed disease list
diare-akut, dengue, pneumonia, tifoid. -/
structure JatimCompRec where
  year : String
  isPartialYear : Bool
  diareAkut : Int
  dengue : Int
  pneumonia : Int
  tifoid : Int
deriving DecidableEq

/-- Placeholder JatimYearData for the unreachable lookup-miss branch. -/
def defaultJatimYearData : JatimYearData :=
  ⟨"", none, [], ⟨0, [], none, none⟩⟩

/-- Total of one disease in a Jatim year:
yearData.diseases[disease]?.total or-else 0. -/
def jatimDiseaseTotal (yearData : JatimYearData) (disease : String) : Int :=
  ((List.lookup disease yearData.diseases).map (·.total)).getD 0

/-- Jawa Timur disease comparison. -/
def getJatimDiseaseComparison (unifiedData : UnifiedData) : List JatimCompRec :=
  let years := List.insertionSort strSortLe (unifiedData.data.jatim.yearlyData.map Prod.fst)
  years.map (fun year =>
    let yearData := (List.lookup year unifiedData.data.jatim.yearlyData).getD defaultJatimYearData
    { year := year
      isPartialYear := yearData.isPartialYear.getD false
      diareAkut := jatimDiseaseTotal yearData "diare-akut"
      dengue := jatimDiseaseTotal yearData "dengue"
      pneumonia := jatimDiseaseTotal yearData "pneumonia"
      tifoid := jatimDiseaseTotal yearData "tifoid" })

/-- Output record of getSummaryStats. -/
structure SummaryStats where
  jakartaDifteri2023 : Int
  jakartaDifteri2022 : Int
  difteriChange : Int
  difteriChangePercent : String
  cirebonTotal : Int
  cirebonPeak : Int
  cirebonPeakYear : Int
  bogorTotal : Int
  hotspots : List Hotspot
  recommendations : List String
deriving DecidableEq

/-- Summary statistics. -/
def getSummaryStats (unifiedData : UnifiedData) : SummaryStats :=
  let jakarta2023 := List.lookup "2023" unifiedData.data.jakarta
  let jakarta2022 := List.lookup "2022" unifiedData.data.jakarta
  let difteri2023 :=
    (((jakarta2023.bind (fun yd => List.lookup "difteri" yd.summary)).map (·.total)).getD 0)
  let difteri2022 :=
    (((jakarta2022.bind (fun yd => List.lookup "difteri" yd.summary)).map (·.total)).getD 0)
  let difteriChange := difteri2023 - difteri2022
  let difteriChangePercent :=
    if 0 < difteri2022 then toFixed1 (difteriChange * 100) difteri2022 else "0"
  { jakartaDifteri2023 := difteri2023
    jakartaDifteri2022 := difteri2022
    difteriChange := difteriChange
    difteriChangePercent := difteriChangePercent
    cirebonTotal := unifiedData.data.cirebon.summary.totalAllYears
    cirebonPeak := unifiedData.data.cirebon.summary.peakCount
    cirebonPeakYear := unifiedData.data.cirebon.summary.peakYear
    bogorTotal := unifiedData.data.bogor.summary.totalAllYears
    hotspots := unifiedData.analytics.hotspots
    recommendations := unifiedData.analytics.recommendations }

-- ==================== LEGACY TYPES ====================

/-- Legacy Jakarta row (string-typed numeric fields; optional fields are
Option, undefined embedded as none). -/
structure JakartaDataItem where
  periode_data : String
  wilayah : Option String
  kota_atau_kabupaten : Option String
  jenis_kelamin : String
  jenis_kasus : Option String
  jumlah : Option String
  jumlah_difteri : Option String
  jumlah_kipi_serius : Option String
  jumlah_hepatitis_a : Option String
  jumlah_mers_cov : Option String
deriving DecidableEq

/-- Legacy Cirebon row. -/
structure CirebonDataItem where
  id : String
  kode_provinsi : String
  nama_provinsi : String
  kode_kabupaten_kota : String
  nama_kabupaten_kota : String
  bps_kode_kecamatan : String
  bps_nama_kecamatan : String
  kemendagri_kode_kecamatan : String
  kemendagri_nama_kecamatan : String
  jumlah_kasus : String
  satuan : String
  tahun : String
deriving DecidableEq

/-- Legacy Bogor row. -/
structure BogorDataItem where
  id : String
  kode_provinsi : String
  nama_provinsi : String
  bps_kode_kabupaten_kota : String
  bps_nama_kabupaten_kota : String
  bps_kode_kecamatan : String
  bps_nama_kecamatan : String
  kemendagri_kode_kecamatan : String
  kemendagri_nama_kecamatan : String
  satuan : String
  jumlah_wabah_lainya : String
  tahun : String
deriving DecidableEq

-- ==================== LEGACY FUNCTIONS ====================

/-- JS Map.prototype.set: an existing key is updated in place (keeping
its position in iteration order), a new key is appended. -/
def mapSet {β : Type} (m : List (String × β)) (k : String) (v : β) :
    List (String × β) :=
  match m with
  | [] => [(k, v)]
  | (k', v') :: t => if k' == k then (k, v) :: t else (k', v') :: mapSet t k v

/-- Output record of transformJakartaDataByRegion; the sums are JS
numbers that may be NaN, hence Option Int. -/
structure RegionAgg where
  name : String
  laki : Option Int
  perempuan : Option Int
  total : Option Int
deriving DecidableEq

/-- Per-row update of the region map in transformJakartaDataByRegion. -/
def jakartaRegionStep (diseaseType : String)
    (m : List (String × (Option Int × Option Int))) (item : JakartaDataItem) :
    List (String × (Option Int × Option Int)) :=
  let region := jsOrS item.wilayah (jsOrS item.kota_atau_kabupaten "Unknown")
  let kasusMatch :=
    match item.jenis_kasus with
    | some s => hasSub (lowerS s).data (lowerS diseaseType).data
    | none => false
  if kasusMatch || diseaseType == "difteri" then
    let jumlah := parseIntJS (jsOrS item.jumlah (jsOrS item.jumlah_difteri "0"))
    let current := (List.lookup region m).getD (some 0, some 0)
    if hasSub (lowerS item.jenis_kelamin).data "laki".data then
      mapSet m region (jsAddN current.1 jumlah, current.2)
    else
      mapSet m region (current.1, jsAddN current.2 jumlah)
  else m

/-- transformJakartaDataByRegion. -/
def transformJakartaDataByRegion (data : List JakartaDataItem) (diseaseType : String) :
    List RegionAgg :=
  let regionMap := data.foldl (jakartaRegionStep diseaseType) []
  regionMap.map (fun p =>
    { name := ⟨replaceFirst ("KAB. ADM. ").data [] (replaceFirst ("KOTA ADM. ").data [] p.1.data)⟩
      laki := p.2.1
      perempuan := p.2.2
      total := jsAddN p.2.1 p.2.2 })

/-- Output record of the legacy by-year aggregations; the sum is a JS
number that may be NaN, hence Option Int. -/
structure YearAggRec where
  year : String
  total : Option Int
deriving DecidableEq

/-- transformCirebonByYear. -/
def transformCirebonByYear (data : List CirebonDataItem) : List YearAggRec :=
  let yearMap := data.foldl (fun m item =>
    let jumlah := parseIntJS item.jumlah_kasus
    let current := (List.lookup item.tahun m).getD (some 0)
    mapSet m item.tahun (jsAddN current jumlah)) []
  List.insertionSort (yearLe YearAggRec.year)
    (yearMap.map (fun p => { year := p.1, total := p.2 }))

/-- transformBogorByYear. -/
def transformBogorByYear (data : List BogorDataItem) : List YearAggRec :=
  let yearMap := data.foldl (fun m item =>
    let jumlah := parseIntJS item.jumlah_wabah_lainya
    let current := (List.lookup item.tahun m).getD (some 0)
    mapSet m item.tahun (jsAddN current jumlah)) []
  List.insertionSort (yearLe YearAggRec.year)
    (yearMap.map (fun p => { year := p.1, total := p.2 }))

-- ==================== WELL-FORMEDNESS PREDICATES ====================

/-- Specification invariant on one year key: a string of exactly four
decimal digits. -/
def wfYearKey (s : String) : Prop :=
  s.data.length = 4 ∧ ∀ c ∈ s.data, isDigitC c = true

instance (s : String) : Decidable (wfYearKey s) :=
  instDecidableAnd

/-- Specification invariant on the key list of a year-keyed mapping:
keys are pairwise distinct (as JS object keys are) and each is a
four-digit string. -/
def wfYearKeys (keys : List String) : Prop :=
  keys.Nodup ∧ ∀ s ∈ keys, wfYearKey s

instance (keys : List String) : Decidable (wfYearKeys keys) :=
  instDecidableAnd

/-- Catalog lookup of a district id against
regions.jakarta.districts, as the optional-chained find in
getJakartaDistrictData. -/
def findJakartaDistrict (unifiedData : UnifiedData) (id : String) : Option DistrictRef :=
  match unifiedData.regions.jakarta.districts with
  | some ds => ds.find? (fun d => d.id == id)
  | none => none

-- ==================== FIXTURE DOCUMENTS ====================

/-- Empty RegionInfo for fixtures. -/
def emptyRegionInfo : RegionInfo :=
  { name := "", type := "", kode := "", districts := none }

/-- Empty Cirebon payload for fixtures. -/
def emptyCirebon : CirebonData :=
  { description := "", diseaseType := "", subdistricts := [], yearlyData := []
    summary := ⟨0, 0, 0, ""⟩ }

/-- Empty Bogor payload for fixtures. -/
def emptyBogor : BogorData :=
  { description := "", diseaseType := "", subdistricts := [], yearlyData := []
    summary := ⟨0, 0, 0, ""⟩ }

/-- Empty Jatim payload for fixtures. -/
def emptyJatim : JatimData :=
  { description := "", source := "", diseaseTypes := [], yearlyData := []
    insights := [], summary := ⟨0, 0, 0, []⟩ }

/-- Minimal fixture document, specialised by the other fixtures. -/
def baseDoc : UnifiedData :=
  { metadata := ⟨"", "", [], "", ""⟩
    regions := ⟨emptyRegionInfo, emptyRegionInfo, emptyRegionInfo⟩
    diseases := []
    data := { jakarta := [], cirebon := emptyCirebon, bogor := emptyBogor
              jatim := emptyJatim }
    analytics := { trends := [], hotspots := [], recommendations := [] } }

/-- Jakarta year fixture with a given difteri summary triple. -/
def jakartaYearFix (laki perempuan total : Int) : JakartaYearData :=
  { periode := "", source := "", isEstimated := none, cases := []
    summary := [("difteri", ⟨laki, perempuan, total⟩)] }

/-- Fixture whose year-keyed mappings all list the keys out of numeric
order (2023, 2021, 2022). -/
def fixtureC3 : UnifiedData :=
  { baseDoc with data :=
    { baseDoc.data with
      jakarta :=
        [("2023", jakartaYearFix 1 1 2), ("2021", jakartaYearFix 0 1 1),
         ("2022", jakartaYearFix 2 0 2)]
      cirebon := { emptyCirebon with yearlyData :=
        [("2023", [("total", .num 3)]), ("2021", [("total", .num 1)]),
         ("2022", [("total", .num 2)])] }
      bogor := { emptyBogor with yearlyData :=
        [("2023", [("total", .num 3)]), ("2021", []),
         ("2022", [("isEstimated", .bool true)])] }
      jatim := { emptyJatim with yearlyData :=
        [("2023", ⟨"", none, [("dengue", ⟨1, 1, 2⟩)], ⟨2, [], none, none⟩⟩),
         ("2021", ⟨"", some true, [], ⟨0, [], none, none⟩⟩),
         ("2022", ⟨"", none, [], ⟨0, [], none, none⟩⟩)] } } }

/-- Fixture with identical Cirebon and Bogor payloads: three catalog
subdistricts of which one (s3) has cumulative total 0. -/
def fixtureC1 : UnifiedData :=
  { baseDoc with data :=
    { baseDoc.data with
      cirebon := { emptyCirebon with
        subdistricts := [⟨"s1", "Alpha"⟩, ⟨"s2", "Beta"⟩, ⟨"s3", "Gamma"⟩]
        yearlyData :=
          [("2021", [("s1", .num 5), ("total", .num 5)]),
           ("2022", [("s1", .num 2), ("s2", .num 3), ("total", .num 5)])] }
      bogor := { emptyBogor with
        subdistricts := [⟨"s1", "Alpha"⟩, ⟨"s2", "Beta"⟩, ⟨"s3", "Gamma"⟩]
        yearlyData :=
          [("2021", [("s1", .num 5), ("total", .num 5)]),
           ("2022", [("s1", .num 2), ("s2", .num 3), ("total", .num 5)])] } } }

/-- Counterexample fixture for the Cirebon yearly trend: the 2021 year
record has no total key at all. -/
def cexC4 : UnifiedData :=
  { baseDoc with data := { baseDoc.data with
      cirebon := { emptyCirebon with yearlyData := [("2021", [])] } } }

/-- Witness fixture for the amended yearly-trend claim: Bogor has one
year with explicit total and isEstimated and one empty year. -/
def fixtureC4b : UnifiedData :=
  { baseDoc with data := { baseDoc.data with
      cirebon := { emptyCirebon with yearlyData := [("2021", [("total", .num 4)])] }
      bogor := { emptyBogor with yearlyData :=
        [("2021", [("total", .num 7), ("isEstimated", .bool true)]), ("2022", [])] } } }

/-- Fixture for the Jakarta district transformer: a 2023 year whose
cases list has a catalogued district with difteri data and an
uncatalogued district with no difteri entry. -/
def fixtureC6 : UnifiedData :=
  { baseDoc with
    regions := { baseDoc.regions with jakarta :=
      { emptyRegionInfo with districts := some [⟨"d1", "District One", "kota"⟩] } }
    data := { baseDoc.data with jakarta :=
      [("2023",
        { periode := "", source := "", isEstimated := none
          cases := [⟨"d1", [("difteri", ⟨1, 2, 3⟩)]⟩, ⟨"dX", []⟩]
          summary := [] })] } }

/-- Legacy Cirebon row whose numeric field is the empty string. -/
def cexC7row : CirebonDataItem :=
  { id := "1", kode_provinsi := "32", nama_provinsi := "JAWA BARAT"
    kode_kabupaten_kota := "3209", nama_kabupaten_kota := "CIREBON"
    bps_kode_kecamatan := "001", bps_nama_kecamatan := "ASTANAJAPURA"
    kemendagri_kode_kecamatan := "001", kemendagri_nama_kecamatan := "ASTANAJAPURA"
    jumlah_kasus := "", satuan := "KASUS", tahun := "2021" }

/-- Legacy rows with parsable numeric fields for the amended legacy
claim. -/
def fixtureC7cirebon : List CirebonDataItem :=
  [{ cexC7row with jumlah_kasus := "4", tahun := "2021" },
   { cexC7row with jumlah_kasus := "2", tahun := "2021" }]

/-- Legacy Bogor row with a parsable numeric field. -/
def fixtureC7bogor : List BogorDataItem :=
  [{ id := "1", kode_provinsi := "32", nama_provinsi := "JAWA BARAT"
     bps_kode_kabupaten_kota := "3201", bps_nama_kabupaten_kota := "BOGOR"
     bps_kode_kecamatan := "010", bps_nama_kecamatan := "NANGGUNG"
     kemendagri_kode_kecamatan := "010", kemendagri_nama_kecamatan := "NANGGUNG"
     satuan := "KASUS", jumlah_wabah_lainya := "6", tahun := "2020" }]

/-- Legacy Jakarta rows for the amended legacy claim: one row with an
explicit count, one whose count fields are empty or absent. -/
def fixtureC7jakarta : List JakartaDataItem :=
  [{ periode_data := "2023", wilayah := some "KOTA ADM. JAKARTA PUSAT"
     kota_atau_kabupaten := none, jenis_kelamin := "Laki-laki"
     jenis_kasus := some "Difteri", jumlah := some "7", jumlah_difteri := none
     jumlah_kipi_serius := none, jumlah_hepatitis_a := none, jumlah_mers_cov := none },
   { periode_data := "2023", wilayah := some "KOTA ADM. JAKARTA PUSAT"
     kota_atau_kabupaten := none, jenis_kelamin := "Perempuan"
     jenis_kasus := some "Difteri", jumlah := some "", jumlah_difteri := none
     jumlah_kipi_serius := none, jumlah_hepatitis_a := none, jumlah_mers_cov := none }]

-- ==================== GENERAL LEMMAS ====================

theorem Char.toNat_inj' {a b : Char} (h : a.toNat = b.toNat) : a = b := by
  cases a; cases b
  simp only [Char.toNat] at h
  congr 1
  exact UInt32.toNat.inj h

theorem lexLe_cons_iff (a b : Char) (as bs : List Char) :
    lexLe (a :: as) (b :: bs) = true ↔
      a.toNat < b.toNat ∨ (a.toNat = b.toNat ∧ lexLe as bs = true) := by
  simp only [lexLe]
  split_ifs with h1 h2
  · simp [h1]
  · simp only [Bool.false_eq_true, false_iff]
    rintro (h | ⟨h, _⟩) <;> omega
  · have hab : a.toNat = b.toNat := by omega
    simp [hab]

theorem lexLe_trans : ∀ as bs cs, lexLe as bs = true → lexLe bs cs = true →
    lexLe as cs = true
  | [], _, _, _, _ => rfl
  | _ :: _, [], _, h, _ => by simp [lexLe] at h
  | _ :: _, _ :: _, [], _, h2 => by simp [lexLe] at h2
  | a :: as, b :: bs, c :: cs, h1, h2 => by
    rw [lexLe_cons_iff] at h1 h2 ⊢
    rcases h1 with h1 | ⟨h1, h1t⟩ <;> rcases h2 with h2 | ⟨h2, h2t⟩
    · exact Or.inl (by omega)
    · exact Or.inl (by omega)
    · exact Or.inl (by omega)
    · exact Or.inr ⟨by omega, lexLe_trans as bs cs h1t h2t⟩

theorem lexLe_total : ∀ as bs, lexLe as bs = true ∨ lexLe bs as = true
  | [], _ => Or.inl rfl
  | _ :: _, [] => Or.inr rfl
  | a :: as, b :: bs => by
    rw [lexLe_cons_iff, lexLe_cons_iff]
    rcases Nat.lt_trichotomy a.toNat b.toNat with h | h | h
    · exact Or.inl (Or.inl h)
    · rcases lexLe_total as bs with ht | ht
      · exact Or.inl (Or.inr ⟨h, ht⟩)
      · exact Or.inr (Or.inr ⟨h.symm, ht⟩)
    · exact Or.inr (Or.inl h)

theorem strSortLe_trans : ∀ a b c : String, strSortLe a b → strSortLe b c → strSortLe a c :=
  fun a b c => lexLe_trans a.data b.data c.data

theorem strSortLe_total : ∀ a b : String, strSortLe a b ∨ strSortLe b a :=
  fun a b => lexLe_total a.data b.data

theorem takeWhile_all {α : Type} (p : α → Bool) :
    ∀ l : List α, (∀ c ∈ l, p c = true) → l.takeWhile p = l
  | [], _ => rfl
  | a :: t, h => by
    rw [List.takeWhile_cons, if_pos (h a (List.mem_cons_self a t))]
    rw [takeWhile_all p t (fun c hc => h c (List.mem_cons_of_mem a hc))]

theorem digitsVal_lt : ∀ l : List Char, (∀ c ∈ l, isDigitC c = true) →
    digitsVal l < 10 ^ l.length
  | [], _ => Nat.one_pos
  | c :: t, h => by
    have hc : isDigitC c = true := h c (List.mem_cons_self c t)
    have hc9 : c.toNat - 48 ≤ 9 := by
      simp only [isDigitC, Bool.and_eq_true, decide_eq_true_eq] at hc
      omega
    have ih := digitsVal_lt t (fun x hx => h x (List.mem_cons_of_mem c hx))
    simp only [digitsVal, List.length_cons, pow_succ]
    calc (c.toNat - 48) * 10 ^ t.length + digitsVal t
        < (c.toNat - 48) * 10 ^ t.length + 10 ^ t.length := by omega
      _ = (c.toNat - 48 + 1) * 10 ^ t.length := by ring
      _ ≤ 10 * 10 ^ t.length := Nat.mul_le_mul_right _ (by omega)
      _ = 10 ^ t.length * 10 := by ring

theorem digitsVal_lt_of_lexLt : ∀ as bs : List Char, as.length = bs.length →
    (∀ c ∈ as, isDigitC c = true) → (∀ c ∈ bs, isDigitC c = true) →
    lexLe as bs = true → as ≠ bs → digitsVal as < digitsVal bs
  | [], [], _, _, _, _, hne => absurd rfl hne
  | [], _ :: _, hlen, _, _, _, _ => by simp at hlen
  | _ :: _, [], hlen, _, _, _, _ => by simp at hlen
  | a :: as, b :: bs, hlen, ha, hb, hlex, hne => by
    have hlen' : as.length = bs.length := by simpa using hlen
    have ha' : ∀ c ∈ as, isDigitC c = true :=
      fun c hc => ha c (List.mem_cons_of_mem a hc)
    have hb' : ∀ c ∈ bs, isDigitC c = true :=
      fun c hc => hb c (List.mem_cons_of_mem b hc)
    have haD : isDigitC a = true := ha a (List.mem_cons_self a as)
    have hbD : isDigitC b = true := hb b (List.mem_cons_self b bs)
    simp only [isDigitC, Bool.and_eq_true, decide_eq_true_eq] at haD hbD
    rw [lexLe_cons_iff] at hlex
    simp only [digitsVal, hlen']
    rcases hlex with hlt | ⟨heq, htail⟩
    · have h1 : digitsVal as < 10 ^ bs.length := hlen' ▸ digitsVal_lt as ha'
      have h2 : a.toNat - 48 + 1 ≤ b.toNat - 48 := by omega
      calc (a.toNat - 48) * 10 ^ bs.length + digitsVal as
          < (a.toNat - 48 + 1) * 10 ^ bs.length := by
            have := h1; nlinarith [pow_pos (by norm_num : (0:ℕ) < 10) bs.length]
        _ ≤ (b.toNat - 48) * 10 ^ bs.length := Nat.mul_le_mul_right _ h2
        _ ≤ (b.toNat - 48) * 10 ^ bs.length + digitsVal bs := Nat.le_add_right _ _
    · have hab : a = b := Char.toNat_inj' heq
      have hne' : as ≠ bs := by
        intro h; exact hne (by rw [hab, h])
      have ih := digitsVal_lt_of_lexLt as bs hlen' ha' hb' htail hne'
      rw [heq]
      omega

theorem digitsVal_inj {as bs : List Char} (hlen : as.length = bs.length)
    (ha : ∀ c ∈ as, isDigitC c = true) (hb : ∀ c ∈ bs, isDigitC c = true)
    (h : digitsVal as = digitsVal bs) : as = bs := by
  by_contra hne
  rcases lexLe_total as bs with hl | hl
  · exact absurd h (Nat.ne_of_lt (digitsVal_lt_of_lexLt as bs hlen ha hb hl hne))
  · exact absurd h.symm
      (Nat.ne_of_lt (digitsVal_lt_of_lexLt bs as hlen.symm hb ha hl (Ne.symm hne)))

theorem parseIntJS_digits (s : String) (hne : s.data ≠ [])
    (h : ∀ c ∈ s.data, isDigitC c = true) :
    parseIntJS s = some ((digitsVal s.data : Nat) : Int) := by
  obtain ⟨c, t, hct⟩ := List.exists_cons_of_ne_nil hne
  have hc : isDigitC c = true := h c (by rw [hct]; exact List.mem_cons_self c t)
  have hdigits : digitsOf (c :: t) = some (digitsVal (c :: t)) := by
    unfold digitsOf
    rw [takeWhile_all isDigitC (c :: t) (by rw [← hct]; exact h)]
    simp
  have hcs : (c == ' ') = false := by
    apply beq_eq_false_iff_ne.mpr
    intro hceq
    rw [hceq] at hc
    simp [isDigitC] at hc
  unfold parseIntJS
  rw [hct]
  rw [List.dropWhile_cons, if_neg (by simp [hcs])]
  dsimp only
  split
  · next t' heq =>
    exfalso
    have : c = '-' := (List.cons.injEq _ _ _ _ ▸ heq).1
    rw [this] at hc
    simp [isDigitC] at hc
  · next t' heq =>
    exfalso
    have : c = '+' := (List.cons.injEq _ _ _ _ ▸ heq).1
    rw [this] at hc
    simp [isDigitC] at hc
  · rw [hdigits]
    rfl

theorem string_data_inj {a b : String} (h : a.data = b.data) : a = b := by
  cases a; cases b
  exact congrArg String.mk h

theorem cmpKey_digits {s : String} (hwf : wfYearKey s) :
    cmpKey s = ((digitsVal s.data : Nat) : Int) := by
  have hne : s.data ≠ [] := by
    intro hnil
    have hlen := hwf.1
    rw [hnil] at hlen
    simp at hlen
  unfold cmpKey
  rw [parseIntJS_digits s hne hwf.2]
  rfl

theorem cmpKey_lt_of_lex {a b : String} (hwa : wfYearKey a) (hwb : wfYearKey b)
    (hlex : strSortLe a b) (hne : a ≠ b) : cmpKey a < cmpKey b := by
  rw [cmpKey_digits hwa, cmpKey_digits hwb]
  have hlen : a.data.length = b.data.length := by rw [hwa.1, hwb.1]
  have hdne : a.data ≠ b.data := fun hd => hne (string_data_inj hd)
  exact_mod_cast digitsVal_lt_of_lexLt a.data b.data hlen hwa.2 hwb.2 hlex hdne

theorem cmpKey_inj {a b : String} (hwa : wfYearKey a) (hwb : wfYearKey b)
    (h : cmpKey a = cmpKey b) : a = b := by
  rw [cmpKey_digits hwa, cmpKey_digits hwb] at h
  have hv : digitsVal a.data = digitsVal b.data := by exact_mod_cast h
  exact string_data_inj (digitsVal_inj (by rw [hwa.1, hwb.1]) hwa.2 hwb.2 hv)

theorem pairwise_strSort (keys : List String) (h : wfYearKeys keys) :
    List.Pairwise (fun a b => cmpKey a < cmpKey b)
      (List.insertionSort strSortLe keys) := by
  have hs : List.Sorted strSortLe (List.insertionSort strSortLe keys) :=
    @List.sorted_insertionSort String strSortLe _ ⟨strSortLe_total⟩
      ⟨strSortLe_trans⟩ keys
  have hnd : (List.insertionSort strSortLe keys).Nodup :=
    (List.perm_insertionSort strSortLe keys).symm.nodup h.1
  have hmem : ∀ x ∈ List.insertionSort strSortLe keys, wfYearKey x :=
    fun x hx => h.2 x ((List.mem_insertionSort strSortLe).1 hx)
  exact List.Pairwise.imp_of_mem
    (fun ha hb hrs => cmpKey_lt_of_lex (hmem _ ha) (hmem _ hb) hrs.1 hrs.2)
    (hs.and hnd)

theorem pairwise_yearSort {α : Type} (key : α → String) (l : List α)
    (h : wfYearKeys (l.map key)) :
    List.Pairwise (fun a b => cmpKey (key a) < cmpKey (key b))
      (List.insertionSort (yearLe key) l) := by
  have hs : List.Sorted (yearLe key) (List.insertionSort (yearLe key) l) :=
    @List.sorted_insertionSort α (yearLe key) _
      ⟨fun a b => Int.le_total (cmpKey (key a)) (cmpKey (key b))⟩
      ⟨fun _ _ _ h1 h2 => le_trans h1 h2⟩ l
  have hperm := List.perm_insertionSort (yearLe key) l
  have hmapnd : ((List.insertionSort (yearLe key) l).map key).Nodup :=
    ((hperm.map key).symm).nodup h.1
  have hpne : List.Pairwise (fun a b => key a ≠ key b)
      (List.insertionSort (yearLe key) l) := List.pairwise_map.mp hmapnd
  have hwf : ∀ x ∈ List.insertionSort (yearLe key) l, wfYearKey (key x) :=
    fun x hx => h.2 (key x)
      (List.mem_map_of_mem key ((List.mem_insertionSort (yearLe key)).1 hx))
  exact List.Pairwise.imp_of_mem
    (fun ha hb hrs =>
      lt_of_le_of_ne hrs.1
        (fun heq => hrs.2 (cmpKey_inj (hwf _ ha) (hwf _ hb) heq)))
    (hs.and hpne)

theorem orderedInsert_filter_head {α : Type} (r : α → α → Prop) [DecidableRel r]
    (htrans : ∀ a b c, r a b → r b c → r a c) (p : α → Bool) (a b : α)
    (l : List α) (hsort : List.Sorted r (b :: l)) (hab : r a b) :
    List.orderedInsert r a (List.filter p (b :: l)) =
      a :: List.filter p (b :: l) := by
  have hall : ∀ x ∈ List.filter p (b :: l), r a x := by
    intro x hx
    rcases List.mem_cons.mp (List.mem_of_mem_filter hx) with hxb | hxl
    · exact hxb ▸ hab
    · exact htrans a b x hab (List.rel_of_sorted_cons hsort x hxl)
  cases hf : List.filter p (b :: l) with
  | nil => rfl
  | cons x t =>
    have hax : r a x := hall x (hf ▸ List.mem_cons_self x t)
    simp [List.orderedInsert, hax]

theorem filter_orderedInsert {α : Type} (r : α → α → Prop) [DecidableRel r]
    (htrans : ∀ a b c, r a b → r b c → r a c) (p : α → Bool) (a : α) :
    ∀ l : List α, List.Sorted r l →
    List.filter p (List.orderedInsert r a l) =
      if p a then List.orderedInsert r a (List.filter p l) else List.filter p l
  | [], _ => by
    simp only [List.orderedInsert, List.filter_cons, List.filter_nil]
  | b :: l, hsort => by
    by_cases hab : r a b
    · rw [List.orderedInsert_of_le r l hab, List.filter_cons]
      cases hpa : p a
      · simp
      · simp only [if_pos]
        exact (orderedInsert_filter_head r htrans p a b l hsort hab).symm
    · have hins : List.orderedInsert r a (b :: l) = b :: List.orderedInsert r a l := by
        simp [List.orderedInsert, hab]
      rw [hins]
      have ih := filter_orderedInsert r htrans p a l hsort.of_cons
      rw [List.filter_cons, List.filter_cons]
      cases hpb : p b <;> cases hpa : p a <;>
        simp only [ih, hpa, if_pos, if_neg, Bool.false_eq_true, List.filter_cons] <;>
        simp [List.orderedInsert, hab, hpb]

theorem filter_insertionSort {α : Type} (r : α → α → Prop) [DecidableRel r]
    (htotal : ∀ a b, r a b ∨ r b a) (htrans : ∀ a b c, r a b → r b c → r a c)
    (p : α → Bool) :
    ∀ l : List α,
    List.filter p (List.insertionSort r l) = List.insertionSort r (List.filter p l)
  | [] => rfl
  | a :: l => by
    have hs : List.Sorted r (List.insertionSort r l) :=
      @List.sorted_insertionSort α r _ ⟨htotal⟩ ⟨fun x y z => htrans x y z⟩ l
    have ih := filter_insertionSort r htotal htrans p l
    rw [List.insertionSort, filter_orderedInsert r htrans p a _ hs, List.filter_cons]
    cases hpa : p a
    · simpa using ih
    · simp only [if_pos, List.insertionSort]
      rw [ih]

theorem lookup_mem {β : Type} {m : List (String × β)} {k : String} {v : β}
    (h : List.lookup k m = some v) : (k, v) ∈ m := by
  induction m with
  | nil => simp [List.lookup] at h
  | cons kv t ih =>
    obtain ⟨k', v'⟩ := kv
    by_cases hk : (k == k') = true
    · simp only [List.lookup, hk] at h
      have hkk : k = k' := eq_of_beq hk
      injection h with hv
      exact List.mem_cons.mpr (Or.inl (by rw [← hkk, ← hv]))
    · simp only [List.lookup, Bool.not_eq_true] at hk ⊢
      rw [List.lookup_cons] at h
      rw [hk] at h
      exact List.mem_cons_of_mem _ (ih h)

theorem mem_mapSet {β : Type} {k : String} {v : β} :
    ∀ {m : List (String × β)} {x : String × β},
    x ∈ mapSet m k v → x = (k, v) ∨ x ∈ m
  | [], x, h => by
    simp [mapSet] at h
    exact Or.inl h
  | (k', v') :: t, x, h => by
    simp only [mapSet] at h
    by_cases hk : (k' == k) = true
    · rw [if_pos hk] at h
      rcases List.mem_cons.mp h with hx | hx
      · exact Or.inl hx
      · exact Or.inr (List.mem_cons_of_mem _ hx)
    · rw [if_neg hk] at h
      rcases List.mem_cons.mp h with hx | hx
      · exact Or.inr (List.mem_cons.mpr (Or.inl hx))
      · rcases mem_mapSet hx with hx' | hx'
        · exact Or.inl hx'
        · exact Or.inr (List.mem_cons_of_mem _ hx')

-- ==================== CLAIM THEOREMS ====================

/-- C5: with the module-level cache cell modelled as explicit state,
a call on an empty cache performs exactly one underlying fetch and
stores the parsed document, a call on a filled cache performs no fetch
and returns the stored document unchanged, and hence two sequential
calls from an empty cache issue exactly one underlying request and
return the identical stored document. -/
theorem c5_fetch_memoized (asset asset2 d : UnifiedData) (n : Nat) :
    fetchUnifiedData asset ⟨none, n⟩ = (asset, ⟨some asset, n + 1⟩) ∧
    fetchUnifiedData asset2 ⟨some d, n⟩ = (d, ⟨some d, n⟩) ∧
    ((fetchUnifiedData asset ⟨none, 0⟩).2.fetchCount = 1 ∧
     (fetchUnifiedData asset2 (fetchUnifiedData asset ⟨none, 0⟩).2).2.fetchCount = 1 ∧
     (fetchUnifiedData asset2 (fetchUnifiedData asset ⟨none, 0⟩).2).1 =
       (fetchUnifiedData asset ⟨none, 0⟩).1 ∧
     (fetchUnifiedData asset ⟨none, 0⟩).2.cachedUnifiedData =
       some (fetchUnifiedData asset ⟨none, 0⟩).1) :=
  ⟨rfl, rfl, rfl, rfl, rfl, rfl⟩

/-- C9: a year string that is not a key of the Jakarta mapping makes
getJakartaDistrictData return the empty list rather than fail. -/
theorem c9_missing_year_empty (d : UnifiedData) (year disease : String)
    (h : List.lookup year d.data.jakarta = none) :
    getJakartaDistrictData d year disease = [] := by
  unfold getJakartaDistrictData
  rw [h]

theorem c9_witness :
    List.lookup "1999" baseDoc.data.jakarta = none ∧
    getJakartaDistrictData baseDoc "1999" "difteri" = [] :=
  ⟨rfl, c9_missing_year_empty baseDoc "1999" "difteri" rfl⟩

/-- C10: getSummaryStats is total when the 2022 and/or 2023 Jakarta
years are absent: the missing year's difteri total defaults to 0, the
change is computed from those defaults, and the percent string is "0"
whenever the 2022 total is zero (in particular when the year is
missing). -/
theorem c10_summary_defaults (d : UnifiedData) :
    (List.lookup "2023" d.data.jakarta = none →
      (getSummaryStats d).jakartaDifteri2023 = 0) ∧
    (List.lookup "2022" d.data.jakarta = none →
      (getSummaryStats d).jakartaDifteri2022 = 0) ∧
    ((getSummaryStats d).jakartaDifteri2022 = 0 →
      (getSummaryStats d).difteriChange = (getSummaryStats d).jakartaDifteri2023 ∧
      (getSummaryStats d).difteriChangePercent = "0") := by
  refine ⟨fun h => ?_, fun h => ?_, fun h => ?_⟩
  · simp [getSummaryStats, h]
  · simp [getSummaryStats, h]
  · simp only [getSummaryStats] at h ⊢
    rw [h]
    refine ⟨by omega, ?_⟩
    rw [if_neg (by omega)]

theorem c10_witness :
    List.lookup "2023" baseDoc.data.jakarta = none ∧
    List.lookup "2022" baseDoc.data.jakarta = none ∧
    (getSummaryStats baseDoc).jakartaDifteri2023 = 0 ∧
    (getSummaryStats baseDoc).jakartaDifteri2022 = 0 ∧
    (getSummaryStats baseDoc).difteriChange = (getSummaryStats baseDoc).jakartaDifteri2023 ∧
    (getSummaryStats baseDoc).difteriChangePercent = "0" := by
  have h := c10_summary_defaults baseDoc
  exact ⟨rfl, rfl, h.1 rfl, h.2.1 rfl, (h.2.2 (h.2.1 rfl)).1, (h.2.2 (h.2.1 rfl)).2⟩

/-- C3: on documents whose year keys are distinct four-digit strings,
the records of getJakartaYearComparison, getCirebonYearlyTrend,
getBogorYearlyTrend and getJatimDiseaseComparison are strictly
ascending in the integer value of their year field, whatever the
insertion order of the year keys. -/
theorem c3_year_ordering (d : UnifiedData) (disease : String)
    (hj : wfYearKeys (d.data.jakarta.map Prod.fst))
    (hc : wfYearKeys (d.data.cirebon.yearlyData.map Prod.fst))
    (hb : wfYearKeys (d.data.bogor.yearlyData.map Prod.fst))
    (hx : wfYearKeys (d.data.jatim.yearlyData.map Prod.fst)) :
    List.Pairwise (fun r1 r2 => cmpKey r1.year < cmpKey r2.year)
      (getJakartaYearComparison d disease) ∧
    List.Pairwise (fun r1 r2 => cmpKey r1.year < cmpKey r2.year)
      (getCirebonYearlyTrend d) ∧
    List.Pairwise (fun r1 r2 => cmpKey r1.year < cmpKey r2.year)
      (getBogorYearlyTrend d) ∧
    List.Pairwise (fun r1 r2 => cmpKey r1.year < cmpKey r2.year)
      (getJatimDiseaseComparison d) := by
  refine ⟨?_, ?_, ?_, ?_⟩
  · unfold getJakartaYearComparison
    exact List.pairwise_map.mpr (pairwise_strSort _ hj)
  · unfold getCirebonYearlyTrend
    refine pairwise_yearSort CTrendRec.year _ ?_
    rw [List.map_map]
    exact hc
  · unfold getBogorYearlyTrend
    refine pairwise_yearSort BTrendRec.year _ ?_
    rw [List.map_map]
    exact hb
  · unfold getJatimDiseaseComparison
    exact List.pairwise_map.mpr (pairwise_strSort _ hx)

theorem c3_witness :
    wfYearKeys (fixtureC3.data.jakarta.map Prod.fst) ∧
    wfYearKeys (fixtureC3.data.cirebon.yearlyData.map Prod.fst) ∧
    wfYearKeys (fixtureC3.data.bogor.yearlyData.map Prod.fst) ∧
    wfYearKeys (fixtureC3.data.jatim.yearlyData.map Prod.fst) ∧
    List.Pairwise (fun r1 r2 => cmpKey r1.year < cmpKey r2.year)
      (getJakartaYearComparison fixtureC3 "difteri") ∧
    List.Pairwise (fun r1 r2 => cmpKey r1.year < cmpKey r2.year)
      (getCirebonYearlyTrend fixtureC3) ∧
    List.Pairwise (fun r1 r2 => cmpKey r1.year < cmpKey r2.year)
      (getBogorYearlyTrend fixtureC3) ∧
    List.Pairwise (fun r1 r2 => cmpKey r1.year < cmpKey r2.year)
      (getJatimDiseaseComparison fixtureC3) := by
  have h := c3_year_ordering fixtureC3 "difteri" (by decide) (by decide)
    (by decide) (by decide)
  exact ⟨by decide, by decide, by decide, by decide, h.1, h.2.1, h.2.2.1, h.2.2.2⟩

/-- C1: getCirebonBySubdistrict returns one record per Cirebon catalog
subdistrict (zero totals included), getBogorBySubdistrict returns only
records with strictly positive total, and on identical catalog and
yearly data the Bogor result is exactly the Cirebon result with the
zero-total records removed. -/
theorem c1_subdistrict_asymmetry (d : UnifiedData)
    (hsub : d.data.bogor.subdistricts = d.data.cirebon.subdistricts)
    (hyd : d.data.bogor.yearlyData = d.data.cirebon.yearlyData) :
    ((getCirebonBySubdistrict d).map SubdistrictRec.id).Perm
      (d.data.cirebon.subdistricts.map Subdistrict.id) ∧
    (∀ r ∈ getBogorBySubdistrict d, 0 < r.total) ∧
    getBogorBySubdistrict d =
      (getCirebonBySubdistrict d).filter (fun r => decide (0 < r.total)) := by
  refine ⟨?_, ?_, ?_⟩
  · unfold getCirebonBySubdistrict
    have hperm := (List.perm_insertionSort totalDesc
      (d.data.cirebon.subdistricts.map (mkSubRec d.data.cirebon.yearlyData))).map
        SubdistrictRec.id
    rw [List.map_map] at hperm
    exact hperm
  · intro r hr
    unfold getBogorBySubdistrict at hr
    have hr' := (List.mem_insertionSort totalDesc).1 hr
    exact of_decide_eq_true (List.mem_filter.1 hr').2
  · unfold getBogorBySubdistrict getCirebonBySubdistrict
    rw [hsub, hyd]
    exact (filter_insertionSort totalDesc
      (fun a b => Int.le_total b.total a.total)
      (fun _ _ _ h1 h2 => le_trans h2 h1)
      (fun r => decide (0 < r.total))
      (d.data.cirebon.subdistricts.map (mkSubRec d.data.cirebon.yearlyData))).symm

theorem c1_witness :
    fixtureC1.data.bogor.subdistricts = fixtureC1.data.cirebon.subdistricts ∧
    fixtureC1.data.bogor.yearlyData = fixtureC1.data.cirebon.yearlyData ∧
    (((getCirebonBySubdistrict fixtureC1).map SubdistrictRec.id).Perm
       (fixtureC1.data.cirebon.subdistricts.map Subdistrict.id) ∧
     (∀ r ∈ getBogorBySubdistrict fixtureC1, 0 < r.total) ∧
     getBogorBySubdistrict fixtureC1 =
       (getCirebonBySubdistrict fixtureC1).filter (fun r => decide (0 < r.total))) :=
  ⟨rfl, rfl, c1_subdistrict_asymmetry fixtureC1 rfl rfl⟩

theorem forall₂_map_self {α β : Type} (f : α → β) (R : β → α → Prop) :
    ∀ l : List α, (∀ a ∈ l, R (f a) a) → List.Forall₂ R (l.map f) l
  | [], _ => List.Forall₂.nil
  | a :: t, h =>
    List.Forall₂.cons (h a (List.mem_cons_self a t))
      (forall₂_map_self f R t (fun x hx => h x (List.mem_cons_of_mem a hx)))

/-- C4 counterexample: on a document whose Cirebon 2021 year record has
no total key, the produced trend record's total is undefined (none),
not the number 0, refuting the claim that an absent total field yields
0 for the Cirebon trend. -/
theorem c4_counterexample :
    getCirebonYearlyTrend cexC4 = [{ year := "2021", total := none }] ∧
    (∀ rec ∈ getCirebonYearlyTrend cexC4, rec.total ≠ some (JVal.num 0)) := by
  refine ⟨by decide, by decide⟩

/-- C4 (amended): every record of getBogorYearlyTrend carries its
year's total (defaulting to the number 0 when the field is absent) and
an isEstimated flag (defaulting to false when absent); every record of
getCirebonYearlyTrend carries the year's raw total field, which is
undefined rather than 0 when the field is absent. -/
theorem c4_yearly_trend_fields (d : UnifiedData) :
    (∀ rec ∈ getCirebonYearlyTrend d, ∃ p ∈ d.data.cirebon.yearlyData,
      rec.year = p.1 ∧ rec.total = List.lookup "total" p.2) ∧
    (∀ rec ∈ getBogorYearlyTrend d, ∃ p ∈ d.data.bogor.yearlyData,
      rec.year = p.1 ∧
      (∀ n, List.lookup "total" p.2 = some (.num n) → rec.total = .num n) ∧
      (List.lookup "total" p.2 = none → rec.total = .num 0) ∧
      (∀ b, List.lookup "isEstimated" p.2 = some (.bool b) →
        rec.isEstimated = .bool b) ∧
      (List.lookup "isEstimated" p.2 = none → rec.isEstimated = .bool false)) := by
  constructor
  · intro rec hrec
    unfold getCirebonYearlyTrend at hrec
    obtain ⟨p, hp, hrec_eq⟩ := List.mem_map.1 ((List.mem_insertionSort _).1 hrec)
    subst hrec_eq
    exact ⟨p, hp, rfl, rfl⟩
  · intro rec hrec
    unfold getBogorYearlyTrend at hrec
    obtain ⟨p, hp, hrec_eq⟩ := List.mem_map.1 ((List.mem_insertionSort _).1 hrec)
    subst hrec_eq
    refine ⟨p, hp, rfl, ?_, ?_, ?_, ?_⟩
    · intro n hn
      show jsOr (List.lookup "total" p.2) (.num 0) = .num n
      rw [hn]
      by_cases hz : n = 0
      · subst hz
        simp [jsOr, JVal.truthy]
      · simp [jsOr, JVal.truthy, hz]
    · intro hn
      show jsOr (List.lookup "total" p.2) (.num 0) = .num 0
      rw [hn]
      rfl
    · intro b hb
      show jsOr (List.lookup "isEstimated" p.2) (.bool false) = .bool b
      rw [hb]
      cases b <;> simp [jsOr, JVal.truthy]
    · intro hb
      show jsOr (List.lookup "isEstimated" p.2) (.bool false) = .bool false
      rw [hb]
      rfl

theorem c4_witness :
    ({ year := "2021", total := JVal.num 7, isEstimated := JVal.bool true } : BTrendRec) ∈
      getBogorYearlyTrend fixtureC4b ∧
    ({ year := "2021", total := some (JVal.num 4) } : CTrendRec) ∈
      getCirebonYearlyTrend fixtureC4b ∧
    (∃ p ∈ fixtureC4b.data.bogor.yearlyData,
      ({ year := "2021", total := JVal.num 7, isEstimated := JVal.bool true } : BTrendRec).year = p.1 ∧
      (∀ n, List.lookup "total" p.2 = some (.num n) →
        ({ year := "2021", total := JVal.num 7, isEstimated := JVal.bool true } : BTrendRec).total = .num n) ∧
      (List.lookup "total" p.2 = none →
        ({ year := "2021", total := JVal.num 7, isEstimated := JVal.bool true } : BTrendRec).total = .num 0) ∧
      (∀ b, List.lookup "isEstimated" p.2 = some (.bool b) →
        ({ year := "2021", total := JVal.num 7, isEstimated := JVal.bool true } : BTrendRec).isEstimated = .bool b) ∧
      (List.lookup "isEstimated" p.2 = none →
        ({ year := "2021", total := JVal.num 7, isEstimated := JVal.bool true } : BTrendRec).isEstimated = .bool false)) ∧
    (∃ p ∈ fixtureC4b.data.cirebon.yearlyData,
      ({ year := "2021", total := some (JVal.num 4) } : CTrendRec).year = p.1 ∧
      ({ year := "2021", total := some (JVal.num 4) } : CTrendRec).total =
        List.lookup "total" p.2) :=
  ⟨by decide, by decide,
   (c4_yearly_trend_fields fixtureC4b).2 _ (by decide),
   (c4_yearly_trend_fields fixtureC4b).1 _ (by decide)⟩

/-- C6: when the requested year is present in the Jakarta mapping,
getJakartaDistrictData returns exactly one record per entry of that
year's cases list, in the same order, and a district whose diseases
mapping lacks the requested disease yields the zero triple. -/
theorem c6_district_records (d : UnifiedData) (year disease : String)
    (yd : JakartaYearData) (h : List.lookup year d.data.jakarta = some yd) :
    List.Forall₂ (fun rec c => rec.id = c.district ∧
        (List.lookup disease c.diseases = none →
          rec.laki = 0 ∧ rec.perempuan = 0 ∧ rec.total = 0))
      (getJakartaDistrictData d year disease) yd.cases := by
  unfold getJakartaDistrictData
  rw [h]
  apply forall₂_map_self
  intro c _
  refine ⟨rfl, fun hnone => ?_⟩
  show ((List.lookup disease c.diseases).getD ⟨0, 0, 0⟩).laki = 0 ∧
    ((List.lookup disease c.diseases).getD ⟨0, 0, 0⟩).perempuan = 0 ∧
    ((List.lookup disease c.diseases).getD ⟨0, 0, 0⟩).total = 0
  rw [hnone]
  exact ⟨rfl, rfl, rfl⟩

theorem c6_witness :
    List.lookup "2023" fixtureC6.data.jakarta = some
      { periode := "", source := "", isEstimated := none
        cases := [⟨"d1", [("difteri", ⟨1, 2, 3⟩)]⟩, ⟨"dX", []⟩], summary := [] } ∧
    List.Forall₂ (fun (rec : JakartaDistrictRec) (c : DistrictCases) =>
        rec.id = c.district ∧
        (List.lookup "difteri" c.diseases = none →
          rec.laki = 0 ∧ rec.perempuan = 0 ∧ rec.total = 0))
      (getJakartaDistrictData fixtureC6 "2023" "difteri")
      ({ periode := "", source := "", isEstimated := none
         cases := [⟨"d1", [("difteri", ⟨1, 2, 3⟩)]⟩, ⟨"dX", []⟩]
         summary := [] } : JakartaYearData).cases :=
  ⟨rfl, c6_district_records fixtureC6 "2023" "difteri" _ rfl⟩

/-- C8: a record of getJakartaDistrictData whose district id resolves
to no entry of the regions.jakarta.districts catalog has the raw id as
its display name. -/
theorem c8_name_fallback (d : UnifiedData) (year disease : String) :
    ∀ rec ∈ getJakartaDistrictData d year disease,
      findJakartaDistrict d rec.id = none → rec.name = rec.id := by
  intro rec hrec hfind
  unfold getJakartaDistrictData at hrec
  cases hl : List.lookup year d.data.jakarta with
  | none =>
    rw [hl] at hrec
    simp at hrec
  | some yd =>
    rw [hl] at hrec
    obtain ⟨c, _, hrec_eq⟩ := List.mem_map.1 hrec
    subst hrec_eq
    have hmatch : (match d.regions.jakarta.districts with
        | some ds => ds.find? (fun x => x.id == c.district)
        | none => none) = none := hfind
    show jsOrS (Option.map (fun i : DistrictRef => i.name)
      (match d.regions.jakarta.districts with
       | some ds => ds.find? (fun x => x.id == c.district)
       | none => none)) c.district = c.district
    rw [hmatch]
    rfl

theorem c8_witness :
    (⟨"dX", "dX", 0, 0, 0⟩ : JakartaDistrictRec) ∈
      getJakartaDistrictData fixtureC6 "2023" "difteri" ∧
    findJakartaDistrict fixtureC6 "dX" = none ∧
    (⟨"dX", "dX", 0, 0, 0⟩ : JakartaDistrictRec).name =
      (⟨"dX", "dX", 0, 0, 0⟩ : JakartaDistrictRec).id :=
  ⟨by decide, by decide,
   c8_name_fallback fixtureC6 "2023" "difteri" _ (by decide) (by decide)⟩

theorem byYear_foldl_isSome {γ : Type} (f : γ → Option Int) (yr : γ → String) :
    ∀ (data : List γ) (m : List (String × Option Int)),
    (∀ kv ∈ m, kv.2.isSome = true) →
    (∀ item ∈ data, (f item).isSome = true) →
    ∀ kv ∈ data.foldl
      (fun m item => mapSet m (yr item)
        (jsAddN ((List.lookup (yr item) m).getD (some 0)) (f item))) m,
      kv.2.isSome = true
  | [], _, hm, _, kv, hkv => hm kv hkv
  | item :: rest, m, hm, hd, kv, hkv => by
    have hstep : ∀ kv2 ∈ mapSet m (yr item)
        (jsAddN ((List.lookup (yr item) m).getD (some 0)) (f item)),
        kv2.2.isSome = true := by
      intro kv2 hkv2
      rcases mem_mapSet hkv2 with h2 | h2
      · rw [h2]
        have hf := hd item (List.mem_cons_self item rest)
        have hcur : ((List.lookup (yr item) m).getD (some 0)).isSome = true := by
          cases hl : List.lookup (yr item) m with
          | none => rfl
          | some v =>
            have := hm (yr item, v) (lookup_mem hl)
            simpa using this
        obtain ⟨x, hx⟩ := Option.isSome_iff_exists.mp hcur
        obtain ⟨y, hy⟩ := Option.isSome_iff_exists.mp hf
        simp [jsAddN, hx, hy]
      · exact hm kv2 h2
    exact byYear_foldl_isSome f yr rest _ hstep
      (fun i hi => hd i (List.mem_cons_of_mem item hi)) kv hkv

theorem jakartaStep_inv (diseaseType : String) (item : JakartaDataItem)
    (m : List (String × (Option Int × Option Int)))
    (hm : ∀ kv ∈ m, kv.2.1.isSome = true ∧ kv.2.2.isSome = true)
    (hp : (parseIntJS (jsOrS item.jumlah (jsOrS item.jumlah_difteri "0"))).isSome = true) :
    ∀ kv ∈ jakartaRegionStep diseaseType m item,
      kv.2.1.isSome = true ∧ kv.2.2.isSome = true := by
  intro kv hkv
  unfold jakartaRegionStep at hkv
  dsimp only at hkv
  obtain ⟨y, hy⟩ := Option.isSome_iff_exists.mp hp
  have hcur : (((List.lookup (jsOrS item.wilayah (jsOrS item.kota_atau_kabupaten "Unknown")) m).getD
      (some 0, some 0)).1.isSome = true) ∧
      (((List.lookup (jsOrS item.wilayah (jsOrS item.kota_atau_kabupaten "Unknown")) m).getD
      (some 0, some 0)).2.isSome = true) := by
    cases hl : List.lookup (jsOrS item.wilayah (jsOrS item.kota_atau_kabupaten "Unknown")) m with
    | none => exact ⟨rfl, rfl⟩
    | some v =>
      have := hm (jsOrS item.wilayah (jsOrS item.kota_atau_kabupaten "Unknown"), v)
        (lookup_mem hl)
      simpa using this
  obtain ⟨x1, hx1⟩ := Option.isSome_iff_exists.mp hcur.1
  obtain ⟨x2, hx2⟩ := Option.isSome_iff_exists.mp hcur.2
  split at hkv
  · split at hkv
    · rcases mem_mapSet hkv with h2 | h2
      · rw [h2]
        refine ⟨?_, ?_⟩
        · simp [hy, hx1, jsAddN]
        · simp [hx2]
      · exact hm kv h2
    · rcases mem_mapSet hkv with h2 | h2
      · rw [h2]
        refine ⟨?_, ?_⟩
        · simp [hx1]
        · simp [hy, hx2, jsAddN]
      · exact hm kv h2
  · exact hm kv hkv

theorem jakartaRegion_foldl_inv (diseaseType : String) :
    ∀ (data : List JakartaDataItem) (m : List (String × (Option Int × Option Int))),
    (∀ kv ∈ m, kv.2.1.isSome = true ∧ kv.2.2.isSome = true) →
    (∀ item ∈ data,
      (parseIntJS (jsOrS item.jumlah (jsOrS item.jumlah_difteri "0"))).isSome = true) →
    ∀ kv ∈ data.foldl (jakartaRegionStep diseaseType) m,
      kv.2.1.isSome = true ∧ kv.2.2.isSome = true
  | [], _, hm, _, kv, hkv => hm kv hkv
  | item :: rest, m, hm, hd, kv, hkv =>
    jakartaRegion_foldl_inv diseaseType rest _
      (jakartaStep_inv diseaseType item m hm (hd item (List.mem_cons_self item rest)))
      (fun i hi => hd i (List.mem_cons_of_mem item hi)) kv hkv

/-- C7 counterexample: a legacy Cirebon row whose numeric field is the
empty string makes transformCirebonByYear accumulate NaN (none), so
the per-year sum is not a well-defined number, refuting the claim that
empty or unparseable fields are treated as 0 by all three legacy
aggregations. -/
theorem c7_counterexample :
    transformCirebonByYear [cexC7row] = [{ year := "2021", total := none }] ∧
    ((transformCirebonByYear [cexC7row]).map YearAggRec.total = [none]) := by
  refine ⟨by decide, by decide⟩

/-- C7 (amended): transformJakartaDataByRegion treats an empty or
absent numeric field as 0 (its or-else chain ends in the literal "0")
and its sums are well-defined numbers whenever every row's effective
field parses; transformCirebonByYear and transformBogorByYear apply
parseInt directly with no fallback, so their sums are well-defined
numbers when every row's field parses, while an empty or unparseable
field propagates NaN into the year's sum; none of the three signals an
error in any case (all are total functions). -/
theorem c7_legacy_parsing :
    (∀ (j jd : Option String), (j = none ∨ j = some "") → (jd = none ∨ jd = some "") →
      parseIntJS (jsOrS j (jsOrS jd "0")) = some 0) ∧
    (∀ (data : List JakartaDataItem) (diseaseType : String),
      (∀ item ∈ data,
        (parseIntJS (jsOrS item.jumlah (jsOrS item.jumlah_difteri "0"))).isSome = true) →
      ∀ rec ∈ transformJakartaDataByRegion data diseaseType,
        rec.laki.isSome = true ∧ rec.perempuan.isSome = true ∧
          rec.total.isSome = true) ∧
    (∀ data : List CirebonDataItem,
      (∀ item ∈ data, (parseIntJS item.jumlah_kasus).isSome = true) →
      ∀ rec ∈ transformCirebonByYear data, rec.total.isSome = true) ∧
    (∀ data : List BogorDataItem,
      (∀ item ∈ data, (parseIntJS item.jumlah_wabah_lainya).isSome = true) →
      ∀ rec ∈ transformBogorByYear data, rec.total.isSome = true) := by
  refine ⟨?_, ?_, ?_, ?_⟩
  · intro j jd h1 h2
    rcases h1 with rfl | rfl <;> rcases h2 with rfl | rfl <;> decide
  · intro data diseaseType hd rec hrec
    unfold transformJakartaDataByRegion at hrec
    obtain ⟨p, hp, hrec_eq⟩ := List.mem_map.1 hrec
    have hinv := jakartaRegion_foldl_inv diseaseType data []
      (fun kv hkv => absurd hkv (List.not_mem_nil kv)) hd p hp
    subst hrec_eq
    obtain ⟨x1, hx1⟩ := Option.isSome_iff_exists.mp hinv.1
    obtain ⟨x2, hx2⟩ := Option.isSome_iff_exists.mp hinv.2
    exact ⟨hinv.1, hinv.2, by simp [hx1, hx2, jsAddN]⟩
  · intro data hd rec hrec
    unfold transformCirebonByYear at hrec
    obtain ⟨p, hp, hrec_eq⟩ := List.mem_map.1 ((List.mem_insertionSort _).1 hrec)
    have hinv := byYear_foldl_isSome (fun item => parseIntJS item.jumlah_kasus)
      (fun item => item.tahun) data []
      (fun kv hkv => absurd hkv (List.not_mem_nil kv)) hd p hp
    subst hrec_eq
    exact hinv
  · intro data hd rec hrec
    unfold transformBogorByYear at hrec
    obtain ⟨p, hp, hrec_eq⟩ := List.mem_map.1 ((List.mem_insertionSort _).1 hrec)
    have hinv := byYear_foldl_isSome (fun item => parseIntJS item.jumlah_wabah_lainya)
      (fun item => item.tahun) data []
      (fun kv hkv => absurd hkv (List.not_mem_nil kv)) hd p hp
    subst hrec_eq
    exact hinv

theorem c7_witness :
    (∀ item ∈ fixtureC7cirebon, (parseIntJS item.jumlah_kasus).isSome = true) ∧
    (∀ rec ∈ transformCirebonByYear fixtureC7cirebon, rec.total.isSome = true) ∧
    (∀ item ∈ fixtureC7jakarta,
      (parseIntJS (jsOrS item.jumlah (jsOrS item.jumlah_difteri "0"))).isSome = true) ∧
    (∀ rec ∈ transformJakartaDataByRegion fixtureC7jakarta "difteri",
      rec.laki.isSome = true ∧ rec.perempuan.isSome = true ∧
        rec.total.isSome = true) ∧
    (∀ item ∈ fixtureC7bogor, (parseIntJS item.jumlah_wabah_lainya).isSome = true) ∧
    (∀ rec ∈ transformBogorByYear fixtureC7bogor, rec.total.isSome = true) ∧
    parseIntJS (jsOrS none (jsOrS none "0")) = some 0 :=
  ⟨by decide, c7_legacy_parsing.2.2.1 fixtureC7cirebon (by decide),
   by decide, c7_legacy_parsing.2.1 fixtureC7jakarta "difteri" (by decide),
   by decide, c7_legacy_parsing.2.2.2 fixtureC7bogor (by decide),
   c7_legacy_parsing.1 none none (Or.inl rfl) (Or.inl rfl)⟩
